import Mathlib

/-!
Verification development for the AWS-Cost-Canceler repository.

The Python sources are shallowly embedded below: money amounts (Python
floats, always written with at most two decimals in this code base) are
modelled as rationals written with `mkRat n 100`; Python string operations
(`in`, `split`) are modelled as executable functions on `List Char`;
dictionaries keyed by strings are association lists with Python's
insert-or-overwrite semantics; `try/except` around upstream AWS calls is
modelled with `Except`, the upstream response being a parameter.
-/

namespace NovaCost

/-! ## String helpers (Python `in` and `split`) -/

/-- Python `pat in s` on char lists: `pat` occurs as a contiguous infix. -/
def charsContains (pat : List Char) : List Char → Bool
  | [] => pat.isEmpty
  | c :: rest => pat.isPrefixOf (c :: rest) || charsContains pat rest

/-- Python substring test `pat in s`. -/
def strContains (s pat : String) : Bool :=
  charsContains pat.toList s.toList

/-- Python `s.split(sep)` on char lists (always returns at least one part). -/
def splitOnChar (sep : Char) : List Char → List (List Char)
  | [] => [[]]
  | c :: rest =>
    let r := splitOnChar sep rest
    if c == sep then [] :: r
    else
      match r with
      | [] => [[c]]
      | h :: t => (c :: h) :: t

/-- Python `s.split('-')[0]`: the first `-`-separated token of `s`. -/
def firstDashToken (s : String) : String :=
  String.mk ((splitOnChar '-' s.toList).headD [])

/-! ## Data model: service cost entries (AWSCostMonitor.get_service_costs) -/

/-- One row of `get_service_costs`' result: the dict
`{"service": ..., "cost": ..., "details": ..., "status": ...}`. -/
structure ServiceEntry where
  service : String
  cost : ℚ
  details : String
  status : String
deriving DecidableEq, Repr

/-- The `details` string chosen by the `if/elif` chain in
`AWSCostMonitor.get_service_costs` from the service name. -/
def detailsFor (service_name : String) : String :=
  if strContains service_name "OpenSearch" then "Search/OUs, Indexing/DUs, Storage"
  else if strContains service_name "Skill Builder" then "Subscription"
  else if strContains service_name "Cost Explorer" then "API usage charges"
  else if strContains service_name "Bedrock" then "Model inference, tokens, API usage"
  else if strContains service_name "Claude" then "Usage charges"
  else "Usage charges"

/-- Python's stable descending-by-cost sort (`services.sort(key=cost, reverse=True)`):
insert `a` before the first element of strictly smaller cost. -/
def insertCostDesc (a : ServiceEntry) : List ServiceEntry → List ServiceEntry
  | [] => [a]
  | b :: rest => if b.cost < a.cost then a :: b :: rest else b :: insertCostDesc a rest

/-- Stable sort by cost descending, processing the list left to right. -/
def sortByCostDesc (l : List ServiceEntry) : List ServiceEntry :=
  l.foldl (fun acc a => insertCostDesc a acc) []

/-- The success branch of `AWSCostMonitor.get_service_costs`: from the
Cost Explorer `(service-name, cost)` groups, skip costs `< 0.01`, build the
entry dicts (status `"Active"`), and sort by cost descending. -/
def processServiceGroups (groups : List (String × ℚ)) : List ServiceEntry :=
  sortByCostDesc <| groups.filterMap fun g =>
    if g.2 < mkRat 1 100 then none
    else some ⟨g.1, g.2, detailsFor g.1, "Active"⟩

/-- Function `analyze_costs` (nova_cost/api.py and CostAnalysisService.analyze_costs):
keep the services whose cost exceeds the threshold. -/
def analyze_costs (services : List ServiceEntry) (threshold : ℚ) : List ServiceEntry :=
  services.filter fun s => threshold < s.cost

/-- The `analyze_costs` pipeline over raw Cost Explorer groups:
`get_service_costs` then the threshold filter. -/
def analyzePipeline (groups : List (String × ℚ)) (threshold : ℚ) : List ServiceEntry :=
  analyze_costs (processServiceGroups groups) threshold

/-! ## Region/usage-type resolver
(`AWSResourceScanner.find_exact_opensearch_billing_source`) -/

/-- One Cost Explorer group of the resolver's query:
`(service, usage_type, cost)` from `group['Keys']` and `BlendedCost`. -/
structure UsageGroup where
  service : String
  usageType : String
  cost : ℚ
deriving DecidableEq, Repr

/-- The `region_map` dict inside the scanner loop. -/
def regionMap : List (String × String) :=
  [("USE1", "us-east-1"), ("USE2", "us-east-2"), ("USW1", "us-west-1"),
   ("USW2", "us-west-2"), ("EUW1", "eu-west-1"), ("EUW2", "eu-west-2"),
   ("EUC1", "eu-central-1")]

/-- The loop state of the scanner: the `is_serverless` flag and the
`primary_region` variable (None until a region code is recognized). -/
structure ScanState where
  is_serverless : Bool
  primaryRegion : Option String
deriving DecidableEq, Repr

/-- The guard `'OpenSearch' in service and cost > 0.01` on one group. -/
def groupGuard (g : UsageGroup) : Bool :=
  strContains g.service "OpenSearch" && decide (mkRat 1 100 < g.cost)

/-- The serverless test `'Serverless' in usage_type or 'ServerlessOCU' in usage_type`. -/
def serverlessHit (g : UsageGroup) : Bool :=
  strContains g.usageType "Serverless" || strContains g.usageType "ServerlessOCU"

/-- The region lookup on one usage type:
`region_code = usage_type.split('-')[0] if '-' in usage_type else None`,
then `if region_code: ... if region_code in region_map`.  (`None` and the
empty string are both falsy in Python.) -/
def regionHitTok (g : UsageGroup) : Option String :=
  if strContains g.usageType "-" then
    if firstDashToken g.usageType = "" then none
    else regionMap.lookup (firstDashToken g.usageType)
  else none

/-- One iteration of the scanner loop: when the group passes the guard,
`is_serverless` is set on a serverless hit, and `primary_region` is filled
by the region lookup only when still `None` (`and not primary_region`). -/
def scanStep (st : ScanState) (g : UsageGroup) : ScanState :=
  if groupGuard g then
    { is_serverless := st.is_serverless || serverlessHit g,
      primaryRegion := st.primaryRegion.or (regionHitTok g) }
  else st

/-- The whole scanner loop, started from `is_serverless = False`,
`primary_region = None`. -/
def scanGroups (groups : List UsageGroup) : ScanState :=
  groups.foldl scanStep ⟨false, none⟩

/-- The resolver's observable output: the region used for the console link
(after `if not primary_region: primary_region = 'us-east-1'`), the
serverless flag, and whether the default fallback fired. -/
structure ResolverOutput where
  region : String
  is_serverless : Bool
  defaulted : Bool
deriving DecidableEq, Repr

/-- The function `find_exact_opensearch_billing_source`'s region/serverless resolution
over the cost groups. -/
def resolveBillingSource (groups : List UsageGroup) : ResolverOutput :=
  { region := (scanGroups groups).primaryRegion.getD "us-east-1",
    is_serverless := (scanGroups groups).is_serverless,
    defaulted := (scanGroups groups).primaryRegion.isNone }

/-- The region lookup on one full group, guard included: what a single
loop iteration can contribute to `primary_region`. -/
def regionHit (g : UsageGroup) : Option String :=
  if groupGuard g then regionHitTok g else none

/-- The first recognized region in group order (direct characterization of
the loop's `primary_region`). -/
def firstRecognizedRegion (groups : List UsageGroup) : Option String :=
  groups.findSome? regionHit

/-! Spec-words definitions (for the refinement comparison in C2): the
region of one usage type per the spec's parsing rule, the cost share per
region, and "the region whose usage-type groups account for the largest
share of the total cost". -/

/-- Modelled from the spec's words: the region a usage-type string parses
to (first `-`-separated token looked up in the region-code table). -/
def specUsageTypeRegion (ut : String) : Option String :=
  regionMap.lookup (firstDashToken ut)

/-- Sum of a list of costs. -/
def sumCosts : List ℚ → ℚ
  | [] => mkRat 0 1
  | c :: rest => c + sumCosts rest

/-- Modelled from the spec's words: total cost of the groups parsing to
region `r`. -/
def specRegionShare (groups : List UsageGroup) (r : String) : ℚ :=
  sumCosts ((groups.filter fun g => specUsageTypeRegion g.usageType = some r).map
    (fun g => g.cost))

/-- Modelled from the spec's words: a region of maximal cost share among
the regions the groups parse to (the earliest such region on ties;
duplicate region occurrences do not change the maximum). -/
def specLargestShareRegion (groups : List UsageGroup) : Option String :=
  (groups.filterMap fun g => specUsageTypeRegion g.usageType).foldl
    (fun best r =>
      match best with
      | none => some r
      | some b => if specRegionShare groups b < specRegionShare groups r then some r else best)
    none

/-! ## Service cancellation API (`ServiceCancellationAPI.cancel_service`) -/

/-- Python truthiness of the optional resource id (`if not domain_name`):
`None` and the empty string are both falsy. -/
def idMissing : Option String → Bool
  | none => true
  | some s => s.isEmpty

/-- A delete/terminate call issued to AWS by a cancellation handler. -/
inductive Effect where
  | deleteDomain (name : String)
  | deleteCollection (id : String)
  | deleteCluster (id : String)
  | deleteFunction (name : String)
  | terminateInstance (id : String)
  | deleteDbInstance (id : String)
  | deleteObjects (bucket : String)
  | deleteBucket (name : String)
deriving DecidableEq, Repr

/-- The AWS account state the handlers act against, with a fault oracle:
when `apiFailure = some (code, msg)`, every AWS client call raises a
`ClientError` with that code and message; when `none`, calls succeed. -/
structure AWSWorld where
  domains : List String
  collections : List String
  clusters : List String
  functions : List String
  instances : List String
  dbInstances : List String
  buckets : List String
  bucketObjects : List (String × List String)
  apiFailure : Option (String × String)
deriving Repr

/-- One boto3 client call against the world. -/
def awsCall {α : Type} (w : AWSWorld) (result : α) : Except (String × String) α :=
  match w.apiFailure with
  | some e => .error e
  | none => .ok result

/-- The dict a cancellation handler returns, restricted to the fields the
handlers actually produce: the `action` tag, the listed resources of a
`list_only` answer, the acted-on resource id, the region echoed by the
default handler, and an `error` text. -/
structure HandlerResult where
  action : String
  listed : List String := []
  resourceId : Option String := none
  handlerRegion : Option String := none
  error : Option String := none
deriving DecidableEq, Repr

/-- Handler `_cancel_opensearch`: list the domains when no id is given, otherwise
`delete_domain`. -/
def cancelOpensearch (w : AWSWorld) (id : Option String) :
    Except (String × String) (HandlerResult × List Effect) :=
  if idMissing id then
    match awsCall w w.domains with
    | .error e => .error e
    | .ok ds => .ok ({ action := "list_only", listed := ds }, [])
  else
    match awsCall w () with
    | .error e => .error e
    | .ok _ => .ok ({ action := "deleted", resourceId := some (id.getD "") },
        [.deleteDomain (id.getD "")])

/-- Handler `_cancel_opensearch_serverless`: list collections or `delete_collection`. -/
def cancelOpensearchServerless (w : AWSWorld) (id : Option String) :
    Except (String × String) (HandlerResult × List Effect) :=
  if idMissing id then
    match awsCall w w.collections with
    | .error e => .error e
    | .ok cs => .ok ({ action := "list_only", listed := cs }, [])
  else
    match awsCall w () with
    | .error e => .error e
    | .ok _ => .ok ({ action := "deleted", resourceId := some (id.getD "") },
        [.deleteCollection (id.getD "")])

/-- Handler `_cancel_redshift`: describe clusters or `delete_cluster`. -/
def cancelRedshift (w : AWSWorld) (id : Option String) :
    Except (String × String) (HandlerResult × List Effect) :=
  if idMissing id then
    match awsCall w w.clusters with
    | .error e => .error e
    | .ok cs => .ok ({ action := "list_only", listed := cs }, [])
  else
    match awsCall w () with
    | .error e => .error e
    | .ok _ => .ok ({ action := "deleted", resourceId := some (id.getD "") },
        [.deleteCluster (id.getD "")])

/-- Handler `_cancel_lambda`: list functions or `delete_function`. -/
def cancelLambda (w : AWSWorld) (id : Option String) :
    Except (String × String) (HandlerResult × List Effect) :=
  if idMissing id then
    match awsCall w w.functions with
    | .error e => .error e
    | .ok fs => .ok ({ action := "list_only", listed := fs }, [])
  else
    match awsCall w () with
    | .error e => .error e
    | .ok _ => .ok ({ action := "deleted", resourceId := some (id.getD "") },
        [.deleteFunction (id.getD "")])

/-- Handler `_cancel_ec2`: describe instances or `terminate_instances`. -/
def cancelEc2 (w : AWSWorld) (id : Option String) :
    Except (String × String) (HandlerResult × List Effect) :=
  if idMissing id then
    match awsCall w w.instances with
    | .error e => .error e
    | .ok is => .ok ({ action := "list_only", listed := is }, [])
  else
    match awsCall w () with
    | .error e => .error e
    | .ok _ => .ok ({ action := "terminated", resourceId := some (id.getD "") },
        [.terminateInstance (id.getD "")])

/-- Handler `_cancel_rds`: describe DB instances or `delete_db_instance`. -/
def cancelRds (w : AWSWorld) (id : Option String) :
    Except (String × String) (HandlerResult × List Effect) :=
  if idMissing id then
    match awsCall w w.dbInstances with
    | .error e => .error e
    | .ok ds => .ok ({ action := "list_only", listed := ds }, [])
  else
    match awsCall w () with
    | .error e => .error e
    | .ok _ => .ok ({ action := "deleted", resourceId := some (id.getD "") },
        [.deleteDbInstance (id.getD "")])

/-- Handler `_cancel_s3`: list buckets when no name is given; otherwise empty the
bucket (when it has contents) and delete it, catching a `ClientError` of
that inner block as a non-raising `action = "error"` dict. -/
def cancelS3 (w : AWSWorld) (id : Option String) :
    Except (String × String) (HandlerResult × List Effect) :=
  if idMissing id then
    match awsCall w w.buckets with
    | .error e => .error e
    | .ok bs => .ok ({ action := "list_only", listed := bs }, [])
  else
    match w.apiFailure with
    | some e => .ok (⟨"error", [], some (id.getD ""), none, some e.2⟩, [])
    | none =>
      if ((w.bucketObjects.lookup (id.getD "")).getD []).isEmpty then
        .ok ({ action := "deleted", resourceId := some (id.getD "") },
          [.deleteBucket (id.getD "")])
      else
        .ok ({ action := "deleted", resourceId := some (id.getD "") },
          [.deleteObjects (id.getD ""), .deleteBucket (id.getD "")])

/-- Handler `_default_cancellation` for unmapped service names: no AWS call, a
"not implemented" payload reported as data, never a raised error. -/
def defaultCancellation (id : Option String) (region : String) :
    Except (String × String) (HandlerResult × List Effect) :=
  .ok (⟨"not_implemented", [], id, some region,
    some "Cancellation not implemented for this service type"⟩, [])

/-- The `cancellation_functions` dispatch table of `cancel_service`. -/
def cancellationFunctions :
    List (String ×
      (AWSWorld → Option String → String → Except (String × String) (HandlerResult × List Effect))) :=
  [("Amazon OpenSearch Service", fun w id _ => cancelOpensearch w id),
   ("OpenSearch Serverless", fun w id _ => cancelOpensearchServerless w id),
   ("Amazon Redshift", fun w id _ => cancelRedshift w id),
   ("AWS Lambda", fun w id _ => cancelLambda w id),
   ("Amazon EC2", fun w id _ => cancelEc2 w id),
   ("Amazon RDS", fun w id _ => cancelRds w id),
   ("Amazon S3", fun w id _ => cancelS3 w id)]

/-- The top-level result dict of `cancel_service`. -/
structure CancelResult where
  success : Bool
  message : String
  details : Option HandlerResult
  error_code : Option String
deriving DecidableEq, Repr

/-- Method `ServiceCancellationAPI.cancel_service`: dispatch on the service name
(falling back to the default handler), wrap a normal return as a success
dict, and turn a raised `ClientError` into a failure dict; the second
component collects the delete/terminate calls actually issued. -/
def cancel_service (w : AWSWorld) (service_name : String) (service_id : Option String)
    (region : String) : CancelResult × List Effect :=
  match (cancellationFunctions.lookup service_name).getD
      (fun _ id r => defaultCancellation id r) w service_id region with
  | .ok (res, effs) =>
    ({ success := true,
       message := "Successfully initiated cancellation for " ++ service_name,
       details := some res, error_code := none }, effs)
  | .error e =>
    ({ success := false,
       message := "Error canceling " ++ service_name ++ ": " ++ e.2,
       details := none, error_code := some e.1 }, [])

/-! ## Cancellation ledger (`AWSServiceCancelerBoto3`) -/

/-- A persisted ledger entry: `{status, canceled_on, cost_at_cancellation}`. -/
structure CancellationRecord where
  status : String
  canceled_on : String
  cost_at_cancellation : ℚ
deriving DecidableEq, Repr

/-- The in-memory ledger: the JSON object mapping service name to record,
in insertion order. -/
abbrev Ledger := List (String × CancellationRecord)

/-- Python dict assignment `d[k] = v`: overwrite in place when the key
exists, else append. -/
def dictInsert (d : Ledger) (k : String) (v : CancellationRecord) : Ledger :=
  match d with
  | [] => [(k, v)]
  | (k', v') :: rest => if k' == k then (k, v) :: rest else (k', v') :: dictInsert rest k v

/-- The state of `canceled_services.json` on disk. -/
inductive LedgerFile where
  | absent
  | corrupt
  | saved (d : Ledger)

/-- Method `load_canceled_services`: parse the file; a missing file or a parse
error both yield the empty dict. -/
def load_canceled_services : LedgerFile → Ledger
  | .absent => []
  | .corrupt => []
  | .saved d => d

/-- Method `save_canceled_services`: whole-file rewrite of the serialized dict. -/
def save_canceled_services (d : Ledger) : LedgerFile :=
  .saved d

/-- Method `record_service_cancellation`: set the entry for `service_name` to a
`Canceled` record dated `today`, then save immediately.  Returns the new
in-memory dict and the new file state. -/
def record_service_cancellation (d : Ledger) (service_name : String) (today : String)
    (cost : ℚ) : Ledger × LedgerFile :=
  let d' := dictInsert d service_name ⟨"Canceled", today, cost⟩
  (d', save_canceled_services d')

/-! ## CLI (`nova_cost/cli.py`) and cost-query error paths -/

/-- A parsed command line of `cli.py` (argparse result): the `report` and
`analyze` subcommands with their options, or no/unknown subcommand. -/
inductive CliCommand where
  | report (days : Int) (output : Option String) (openReport : Bool)
  | analyze (threshold : ℚ) (days : Int)
  | noCommand

/-- Function `main` of `cli.py` on the runs that complete without an exception,
parametrized by the upstream Cost Explorer service groups: `report` prints
the path and returns 0; `analyze` returns `0 if result else 1`; a missing
command prints help and returns 1.  (`main` installs no exception handler.) -/
def cliMain (upstream : List (String × ℚ)) : CliCommand → Nat
  | .report _ _ _ => 0
  | .analyze threshold _ =>
    if (analyzePipeline upstream threshold).isEmpty then 1 else 0
  | .noCommand => 1

/-- The sample service list `AWSCostMonitor.get_service_costs` substitutes
when the Cost Explorer call raises. -/
def sampleServiceCosts : List ServiceEntry :=
  [⟨"AWS Skill Builder Individual", mkRat 5800 100, "Subscription", "Canceled on 2025-04-15"⟩,
   ⟨"Amazon OpenSearch Service", mkRat 1965 100, "Search/OUs, Indexing/DUs, Storage", "Canceled on 2025-04-15"⟩,
   ⟨"AWS Cost Explorer (Usage Analytics Service)", mkRat 1215 100, "API usage charges", "Active"⟩,
   ⟨"Tax (AWS Services)", mkRat 382 100, "Usage charges", "Active"⟩,
   ⟨"Amazon Bedrock", mkRat 12 100, "Model inference, tokens, API usage", "Active"⟩,
   ⟨"Claude 3.7 Sonnet (Amazon Bedrock Edition)", mkRat 2 100, "Usage charges", "Active"⟩,
   ⟨"Amazon S3", mkRat 1 100, "Storage, requests", "Active"⟩]

/-- Method `AWSCostMonitor.get_service_costs` over the upstream response: the
group-processing pipeline on success, the hardcoded sample list when the
Cost Explorer call raises. -/
def monitor_get_service_costs (resp : Except (String × String) (List (String × ℚ))) :
    List ServiceEntry :=
  match resp with
  | .ok groups => processServiceGroups groups
  | .error _ => sampleServiceCosts

/-- The sample daily-cost rows `AWSCostMonitor.get_daily_costs` generates
when the call raises: one row per day `i = days_back .. 1`, dated by the
caller-supplied day formatter, cost 9.75 every fifth day and `3.00 + i % 3`
otherwise. -/
def sampleDailyCosts (dayStr : Nat → String) (days_back : Nat) : List (String × ℚ × String) :=
  ((List.range days_back).map fun j =>
    let i := days_back - j
    (dayStr i, if i % 5 = 0 then mkRat 975 100 else mkRat 300 100 + mkRat (Int.ofNat (i % 3)) 1,
     "AWS Services"))

/-- Method `AWSCostMonitor.get_daily_costs` over the upstream response. -/
def monitor_get_daily_costs (dayStr : Nat → String) (days_back : Nat)
    (resp : Except (String × String) (List (String × ℚ))) : List (String × ℚ × String) :=
  match resp with
  | .ok rows => rows.map fun r => (r.1, r.2, "AWS Services")
  | .error _ => sampleDailyCosts dayStr days_back

/-- Method `AWSCostAdapter.get_service_costs`: the long success branch (service
assembly, billing-console enrichment, sorting) abstracted as `process`;
the `except` branch returns the empty list instead of sample data. -/
def adapter_get_service_costs (process : List (String × ℚ) → List ServiceEntry)
    (resp : Except (String × String) (List (String × ℚ))) : List ServiceEntry :=
  match resp with
  | .ok groups => process groups
  | .error _ => []

/-- Method `AWSCostAdapter.get_daily_costs`: success branch abstracted as
`process`; the `except` branch returns the empty list. -/
def adapter_get_daily_costs (process : List (String × ℚ) → List (String × ℚ × String))
    (resp : Except (String × String) (List (String × ℚ))) : List (String × ℚ × String) :=
  match resp with
  | .ok rows => process rows
  | .error _ => []

end NovaCost

namespace NovaCost

/-! ## Helper lemmas about the scanner loop -/

theorem findSome?_cons_or {α β : Type} (f : α → Option β) (a : α) (l : List α) :
    List.findSome? f (a :: l) = (f a).or (List.findSome? f l) := by
  rw [List.findSome?_cons]
  cases f a <;> simp [Option.or]

theorem scanStep_is_serverless (st : ScanState) (g : UsageGroup) :
    (scanStep st g).is_serverless = (st.is_serverless || (groupGuard g && serverlessHit g)) := by
  unfold scanStep
  by_cases h : groupGuard g = true <;> simp [h]

theorem scanStep_primaryRegion (st : ScanState) (g : UsageGroup) :
    (scanStep st g).primaryRegion = st.primaryRegion.or (regionHit g) := by
  unfold scanStep regionHit
  by_cases h : groupGuard g = true <;> simp [h, Option.or_none]

theorem scanLoop_is_serverless (groups : List UsageGroup) :
    ∀ st : ScanState, (groups.foldl scanStep st).is_serverless =
      (st.is_serverless || groups.any fun g => groupGuard g && serverlessHit g) := by
  induction groups with
  | nil => intro st; simp
  | cons g gs ih =>
    intro st
    simp only [List.foldl_cons, List.any_cons]
    rw [ih, scanStep_is_serverless, Bool.or_assoc]

theorem scanLoop_primaryRegion (groups : List UsageGroup) :
    ∀ st : ScanState, (groups.foldl scanStep st).primaryRegion =
      st.primaryRegion.or (firstRecognizedRegion groups) := by
  induction groups with
  | nil => intro st; simp [firstRecognizedRegion, Option.or_none]
  | cons g gs ih =>
    intro st
    simp only [List.foldl_cons, firstRecognizedRegion]
    rw [ih, scanStep_primaryRegion, findSome?_cons_or, Option.or_assoc]
    rfl

theorem charsContains_of_isPrefixOf {p q : List Char} (hpq : p.isPrefixOf q = true) :
    ∀ l, charsContains q l = true → charsContains p l = true := by
  intro l
  induction l with
  | nil =>
    simp only [charsContains]
    intro hq
    have hq' : q = [] := List.isEmpty_iff.mp hq
    subst hq'
    have hp : p = [] := List.prefix_nil.mp ( List.isPrefixOf_iff_prefix.mp hpq)
    simp [hp]
  | cons c rest ih =>
    simp only [charsContains, Bool.or_eq_true]
    rintro (hpre | hrest)
    · exact Or.inl ( List.isPrefixOf_iff_prefix.mpr
        (( List.isPrefixOf_iff_prefix.mp hpq).trans ( List.isPrefixOf_iff_prefix.mp hpre)))
    · exact Or.inr (ih hrest)

theorem strContains_of_serverlessOCU (s : String) :
    strContains s "ServerlessOCU" = true → strContains s "Serverless" = true :=
  charsContains_of_isPrefixOf (by decide) s.toList

theorem resolve_region_def (groups : List UsageGroup) :
    (resolveBillingSource groups).region = (scanGroups groups).primaryRegion.getD "us-east-1" :=
  rfl

theorem resolve_serverless_def (groups : List UsageGroup) :
    (resolveBillingSource groups).is_serverless = (scanGroups groups).is_serverless :=
  rfl

theorem resolve_defaulted_def (groups : List UsageGroup) :
    (resolveBillingSource groups).defaulted = (scanGroups groups).primaryRegion.isNone :=
  rfl

theorem none_or (x : Option String) : (Option.or none x) = x := by
  cases x <;> rfl

theorem scanGroups_primaryRegion (groups : List UsageGroup) :
    (scanGroups groups).primaryRegion = firstRecognizedRegion groups := by
  unfold scanGroups
  rw [scanLoop_primaryRegion]
  exact none_or _

theorem firstRecognizedRegion_singleton (g : UsageGroup) :
    firstRecognizedRegion [g] = regionHit g := by
  unfold firstRecognizedRegion
  rw [findSome?_cons_or, List.findSome?_nil]
  cases regionHit g <;> rfl

/-- C1. On the service-cost list Lambda 10.50 / S3 5.25 / Skill Builder 29.00
with threshold 10.0, `analyze_costs` returns exactly the Skill Builder and
Lambda entries, in descending cost order. -/
theorem c1_analyze_costs_scenario :
    analyzePipeline
        [("AWS Lambda", mkRat 1050 100), ("Amazon S3", mkRat 525 100),
         ("AWS Skill Builder", mkRat 2900 100)] (mkRat 1000 100) =
      [⟨"AWS Skill Builder", mkRat 2900 100, "Subscription", "Active"⟩,
       ⟨"AWS Lambda", mkRat 1050 100, "Usage charges", "Active"⟩] := by
  decide

theorem scanGroups_is_serverless (groups : List UsageGroup) :
    (scanGroups groups).is_serverless = groups.any fun g => groupGuard g && serverlessHit g := by
  unfold scanGroups
  rw [scanLoop_is_serverless]
  rfl

unseal Rat.add in
/-- C2 counterexample. The claim says the resolver outputs the region
with the largest cost share.  On two OpenSearch groups, EUW1 at cost 1.00
listed first and USE1 at cost 100.00 second, the code outputs `eu-west-1`
(the first recognized code) while the largest share belongs to `us-east-1`. -/
theorem c2_largest_share_counterexample :
    (resolveBillingSource
        [⟨"Amazon OpenSearch Service", "EUW1-SearchOCU-m4.large.search", mkRat 100 100⟩,
         ⟨"Amazon OpenSearch Service", "USE1-SearchOCU-m4.large.search", mkRat 10000 100⟩]).region
        = "eu-west-1" ∧
      specLargestShareRegion
        [⟨"Amazon OpenSearch Service", "EUW1-SearchOCU-m4.large.search", mkRat 100 100⟩,
         ⟨"Amazon OpenSearch Service", "USE1-SearchOCU-m4.large.search", mkRat 10000 100⟩]
        = some "us-east-1" ∧
      specRegionShare
        [⟨"Amazon OpenSearch Service", "EUW1-SearchOCU-m4.large.search", mkRat 100 100⟩,
         ⟨"Amazon OpenSearch Service", "USE1-SearchOCU-m4.large.search", mkRat 10000 100⟩]
        "eu-west-1"
        < specRegionShare
        [⟨"Amazon OpenSearch Service", "EUW1-SearchOCU-m4.large.search", mkRat 100 100⟩,
         ⟨"Amazon OpenSearch Service", "USE1-SearchOCU-m4.large.search", mkRat 10000 100⟩]
        "us-east-1" := by
  refine ⟨by decide, by decide, by decide⟩

/-- C2 amended. The region the resolver outputs is the one parsed
from the *first* group (in input order) that passes the cost guard and
carries a recognized region code — not the region of largest cost share;
`us-east-1` when no group is recognized (and only then is the output
flagged as defaulted). -/
theorem c2_region_is_first_recognized (groups : List UsageGroup) :
    (resolveBillingSource groups).region = (firstRecognizedRegion groups).getD "us-east-1" ∧
      (resolveBillingSource groups).defaulted = (firstRecognizedRegion groups).isNone := by
  rw [resolve_region_def, resolve_defaulted_def, scanGroups_primaryRegion]
  exact ⟨rfl, rfl⟩

/-- C3 counterexample. The claim says every usage type whose first
`-`-separated token is in the region table resolves to that region.  For
the dash-less usage type `"EUW1"` the first token is `"EUW1"`, which the
table maps to `eu-west-1`, yet the code (which only splits when `'-'` is
present) falls back to the default `us-east-1` and flags it. -/
theorem c3_first_token_counterexample :
    firstDashToken "EUW1" = "EUW1" ∧
      regionMap.lookup "EUW1" = some "eu-west-1" ∧
      (resolveBillingSource [⟨"Amazon OpenSearch Service", "EUW1", mkRat 500 100⟩]).region
        = "us-east-1" ∧
      (resolveBillingSource [⟨"Amazon OpenSearch Service", "EUW1", mkRat 500 100⟩]).defaulted
        = true := by
  refine ⟨by decide, by decide, by decide, by decide⟩

/-- C3 amended. For a single OpenSearch usage-type group above the
cost floor: if the usage type *contains a dash* and its first token is in
the region table, the resolver returns that region (not defaulted); if the
first token is not in the table, it returns the default `us-east-1` with
the low-confidence (defaulted) flag. -/
theorem c3_region_parse (ut : String) (c : ℚ) (hc : mkRat 1 100 < c) :
    (∀ r : String, strContains ut "-" = true →
        regionMap.lookup (firstDashToken ut) = some r →
        (resolveBillingSource [⟨"Amazon OpenSearch Service", ut, c⟩]).region = r ∧
          (resolveBillingSource [⟨"Amazon OpenSearch Service", ut, c⟩]).defaulted = false) ∧
      (regionMap.lookup (firstDashToken ut) = none →
        (resolveBillingSource [⟨"Amazon OpenSearch Service", ut, c⟩]).region = "us-east-1" ∧
          (resolveBillingSource [⟨"Amazon OpenSearch Service", ut, c⟩]).defaulted = true) := by
  have hguard : groupGuard ⟨"Amazon OpenSearch Service", ut, c⟩ = true := by
    unfold groupGuard
    simp only [Bool.and_eq_true]
    exact ⟨by decide, decide_eq_true hc⟩
  have hpr : (scanGroups [⟨"Amazon OpenSearch Service", ut, c⟩]).primaryRegion
      = regionHitTok ⟨"Amazon OpenSearch Service", ut, c⟩ := by
    rw [scanGroups_primaryRegion, firstRecognizedRegion_singleton]
    simp [regionHit, hguard]
  constructor
  · intro r hdash hlk
    have htok : ¬(firstDashToken ut = "") := by
      intro h0
      rw [h0] at hlk
      have hnone : (List.lookup "" regionMap : Option String) = none := by decide
      rw [hnone] at hlk
      exact Option.noConfusion hlk
    have hrt : regionHitTok ⟨"Amazon OpenSearch Service", ut, c⟩ = some r := by
      simp [regionHitTok, hdash, htok, hlk]
    constructor
    · rw [resolve_region_def, hpr, hrt]
      rfl
    · rw [resolve_defaulted_def, hpr, hrt]
      rfl
  · intro hlk
    have hrt : regionHitTok ⟨"Amazon OpenSearch Service", ut, c⟩ = none := by
      by_cases hdash : strContains ut "-" = true
      · by_cases htok : firstDashToken ut = "" <;>
          simp [regionHitTok, hdash, htok, hlk]
      · simp [regionHitTok, Bool.not_eq_true] at hdash ⊢
        simp [hdash]
    constructor
    · rw [resolve_region_def, hpr, hrt]
      rfl
    · rw [resolve_defaulted_def, hpr, hrt]
      rfl

/-- Witness for C3 (amended) at `"USE1-SearchOCU-t2.small.search"`, cost 5.00. -/
theorem c3_region_parse_witness :
    (resolveBillingSource
        [⟨"Amazon OpenSearch Service", "USE1-SearchOCU-t2.small.search", mkRat 500 100⟩]).region
        = "us-east-1" ∧
      (resolveBillingSource
        [⟨"Amazon OpenSearch Service", "USE1-SearchOCU-t2.small.search", mkRat 500 100⟩]).defaulted
        = false :=
  (c3_region_parse "USE1-SearchOCU-t2.small.search" (mkRat 500 100) (by decide)).1
    "us-east-1" (by decide) (by decide)

/-- C4. For groups that all pass the resolver's guard (OpenSearch
service, cost above 0.01), the `is_serverless` output is true exactly when
some usage type contains the substring `"Serverless"`. -/
theorem c4_is_serverless_iff (groups : List UsageGroup)
    (h : ∀ g ∈ groups, strContains g.service "OpenSearch" = true ∧ mkRat 1 100 < g.cost) :
    ((resolveBillingSource groups).is_serverless = true ↔
      ∃ g ∈ groups, strContains g.usageType "Serverless" = true) := by
  rw [resolve_serverless_def, scanGroups_is_serverless, List.any_eq_true]
  constructor
  · rintro ⟨g, hg, hgb⟩
    refine ⟨g, hg, ?_⟩
    simp only [Bool.and_eq_true] at hgb
    have hhit : serverlessHit g = true := hgb.2
    unfold serverlessHit at hhit
    simp only [Bool.or_eq_true] at hhit
    rcases hhit with h1 | h2
    · exact h1
    · exact strContains_of_serverlessOCU _ h2
  · rintro ⟨g, hg, hs⟩
    obtain ⟨hsvc, hcost⟩ := h g hg
    refine ⟨g, hg, ?_⟩
    unfold groupGuard serverlessHit
    rw [hsvc, hs]
    simp [decide_eq_true hcost]

/-- Witness for C4 on a serverless OCU group. -/
theorem c4_is_serverless_iff_witness :
    (resolveBillingSource
        [⟨"Amazon OpenSearch Service", "USE1-ServerlessIndexingOCU", mkRat 300 100⟩]).is_serverless
      = true :=
  (c4_is_serverless_iff
      [⟨"Amazon OpenSearch Service", "USE1-ServerlessIndexingOCU", mkRat 300 100⟩]
      (by decide)).mpr (by decide)

/-! ## Cancellation dispatch -/

theorem lookup_eq_none_of_notMem {β : Type} (l : List (String × β)) (k : String)
    (h : k ∉ l.map Prod.fst) : List.lookup k l = none := by
  induction l with
  | nil => rfl
  | cons p rest ih =>
    obtain ⟨a, b⟩ := p
    have h1 : k ≠ a := fun hka => h (by simp [hka])
    have h2 : k ∉ rest.map Prod.fst := fun hk => h (by simp [hk])
    have hne : (k == a) = false := beq_eq_false_iff_ne.mpr h1
    simp only [List.lookup, hne]
    exact ih h2

/-- C5. A service name outside the seven-entry dispatch table goes to
the default handler: the call returns success with a `not_implemented`
details payload, no error code, and issues no AWS delete/terminate call —
never an error result. -/
theorem c5_unmapped_no_op_success (w : AWSWorld) (name : String) (id : Option String)
    (region : String) (h : name ∉ cancellationFunctions.map Prod.fst) :
    (cancel_service w name id region).1.success = true ∧
      (cancel_service w name id region).1.details =
        some ⟨"not_implemented", [], id, some region,
          some "Cancellation not implemented for this service type"⟩ ∧
      (cancel_service w name id region).1.error_code = none ∧
      (cancel_service w name id region).2 = [] := by
  have hl : List.lookup name cancellationFunctions = none :=
    lookup_eq_none_of_notMem _ _ h
  unfold cancel_service
  rw [hl]
  exact ⟨rfl, rfl, rfl, rfl⟩

/-- Witness for C5: canceling `"AWS Skill Builder"` (unmapped) succeeds
with `not_implemented`. -/
theorem c5_unmapped_no_op_success_witness :
    (cancel_service ⟨[], [], [], [], [], [], [], [], none⟩ "AWS Skill Builder"
        (some "sub-1") "us-east-1").1.success = true ∧
      (cancel_service ⟨[], [], [], [], [], [], [], [], none⟩ "AWS Skill Builder"
        (some "sub-1") "us-east-1").1.error_code = none :=
  have h := c5_unmapped_no_op_success ⟨[], [], [], [], [], [], [], [], none⟩
    "AWS Skill Builder" (some "sub-1") "us-east-1" (by decide)
  ⟨h.1, h.2.2.1⟩

/-- C9. For every mapped service name and a missing (`None` or empty)
resource id, `cancel_service` issues no delete/terminate call; when the
AWS calls succeed, the top-level result is a success with the
"Successfully initiated cancellation" message and `list_only` details. -/
theorem c9_missing_id_list_only (w : AWSWorld) (name : String) (id : Option String)
    (region : String) (hmap : name ∈ cancellationFunctions.map Prod.fst)
    (hid : idMissing id = true) :
    (cancel_service w name id region).2 = [] ∧
      (w.apiFailure = none →
        (cancel_service w name id region).1.success = true ∧
          (cancel_service w name id region).1.message =
            "Successfully initiated cancellation for " ++ name ∧
          Option.map HandlerResult.action (cancel_service w name id region).1.details =
            some "list_only") := by
  simp only [cancellationFunctions, List.map_cons, List.map_nil, List.mem_cons,
    List.not_mem_nil, or_false] at hmap
  rcases hmap with h | h | h | h | h | h | h <;> subst h <;>
    refine ⟨?_, fun hfail => ?_⟩ <;>
    first
      | simp [cancel_service, cancellationFunctions, List.lookup, cancelOpensearch,
          cancelOpensearchServerless, cancelRedshift, cancelLambda, cancelEc2,
          cancelRds, cancelS3, awsCall, hid, hfail]
      | (cases hw : w.apiFailure <;>
          simp [cancel_service, cancellationFunctions, List.lookup, cancelOpensearch,
            cancelOpensearchServerless, cancelRedshift, cancelLambda, cancelEc2,
            cancelRds, cancelS3, awsCall, hid, hw])

/-- Witness for C9: OpenSearch cancellation without an id only lists. -/
theorem c9_missing_id_list_only_witness :
    (cancel_service ⟨["prod-search"], [], [], [], [], [], [], [], none⟩
        "Amazon OpenSearch Service" none "us-east-1").2 = [] ∧
      (cancel_service ⟨["prod-search"], [], [], [], [], [], [], [], none⟩
        "Amazon OpenSearch Service" none "us-east-1").1.success = true ∧
      Option.map HandlerResult.action
        (cancel_service ⟨["prod-search"], [], [], [], [], [], [], [], none⟩
          "Amazon OpenSearch Service" none "us-east-1").1.details = some "list_only" :=
  have h := c9_missing_id_list_only ⟨["prod-search"], [], [], [], [], [], [], [], none⟩
    "Amazon OpenSearch Service" none "us-east-1" (by decide) (by decide)
  ⟨h.1, (h.2 rfl).1, (h.2 rfl).2.2⟩

/-! ## Cancellation ledger -/

theorem lookup_dictInsert_self (d : Ledger) (k : String) (v : CancellationRecord) :
    List.lookup k (dictInsert d k v) = some v := by
  induction d with
  | nil => simp [dictInsert, List.lookup]
  | cons p rest ih =>
    obtain ⟨a, b⟩ := p
    by_cases hak : a = k
    · subst hak
      simp [dictInsert, List.lookup]
    · have h1 : (a == k) = false := beq_eq_false_iff_ne.mpr hak
      have h2 : (k == a) = false := beq_eq_false_iff_ne.mpr (Ne.symm hak)
      simp [dictInsert, h1, List.lookup, h2, ih]

theorem lookup_dictInsert_ne (d : Ledger) (k : String) (v : CancellationRecord)
    (s : String) (hs : s ≠ k) :
    List.lookup s (dictInsert d k v) = List.lookup s d := by
  induction d with
  | nil => simp [dictInsert, List.lookup, beq_eq_false_iff_ne.mpr hs]
  | cons p rest ih =>
    obtain ⟨a, b⟩ := p
    by_cases hak : a = k
    · subst hak
      simp [dictInsert, List.lookup, beq_eq_false_iff_ne.mpr hs]
    · have h1 : (a == k) = false := beq_eq_false_iff_ne.mpr hak
      by_cases hsa : s = a
      · subst hsa
        simp [dictInsert, h1, List.lookup]
      · have h2 : (s == a) = false := beq_eq_false_iff_ne.mpr hsa
        simp [dictInsert, h1, List.lookup, h2, ih]

/-- C6. Recording a cancellation and immediately loading the saved
ledger yields, for that exact service name, a `"Canceled"` entry with the
same date and the same cost. -/
theorem c6_record_load_roundtrip (d : Ledger) (service_name today : String) (cost : ℚ) :
    List.lookup service_name
        (load_canceled_services (record_service_cancellation d service_name today cost).2)
      = some ⟨"Canceled", today, cost⟩ :=
  lookup_dictInsert_self d service_name ⟨"Canceled", today, cost⟩

/-- C10. `record_service_cancellation` only touches the entry of the
written service name: after the write, every other service name reads
back exactly what the previous ledger held for it. -/
theorem c10_record_frame (d : Ledger) (service_name today : String) (cost : ℚ)
    (s : String) (hs : s ≠ service_name) :
    List.lookup s
        (load_canceled_services (record_service_cancellation d service_name today cost).2)
      = List.lookup s d :=
  lookup_dictInsert_ne d service_name ⟨"Canceled", today, cost⟩ s hs

/-- Witness for C10: inserting `"AWS Lambda"` leaves the OpenSearch entry
unchanged. -/
theorem c10_record_frame_witness :
    List.lookup "Amazon OpenSearch Service"
        (load_canceled_services
          (record_service_cancellation
            [("Amazon OpenSearch Service", ⟨"Canceled", "2025-04-15", mkRat 1965 100⟩)]
            "AWS Lambda" "2025-04-20" (mkRat 1050 100)).2)
      = List.lookup "Amazon OpenSearch Service"
          [("Amazon OpenSearch Service", ⟨"Canceled", "2025-04-15", mkRat 1965 100⟩)] :=
  c10_record_frame
    [("Amazon OpenSearch Service", ⟨"Canceled", "2025-04-15", mkRat 1965 100⟩)]
    "AWS Lambda" "2025-04-20" (mkRat 1050 100) "Amazon OpenSearch Service" (by decide)

/-! ## CLI exit codes and cost-query error paths -/

/-- C7 counterexample. An `analyze` run that completes without an
exception but finds no service above the threshold exits with code 1, not
0: on upstream `[("Amazon S3", 5.25)]` with threshold 10.0 the result is
empty and `main` returns `0 if result else 1`, i.e. 1. -/
theorem c7_empty_analyze_exit_counterexample :
    analyzePipeline [("Amazon S3", mkRat 525 100)] (mkRat 1000 100) = [] ∧
      cliMain [("Amazon S3", mkRat 525 100)] (.analyze (mkRat 1000 100) 30) = 1 :=
  ⟨by decide, by decide⟩

/-- C7 amended. In `cli.py`, `report` exits 0 when it completes;
`analyze` exits 0 exactly when some service is above the threshold and 1
otherwise (even without any exception); a missing command exits 1.
(`main` catches no exceptions at all.) -/
theorem c7_exit_codes (upstream : List (String × ℚ)) (t : ℚ) (days d2 : Int)
    (out : Option String) (op : Bool) :
    cliMain upstream (.report d2 out op) = 0 ∧
      (cliMain upstream (.analyze t days) = 0 ↔
        ∃ e ∈ processServiceGroups upstream, t < e.cost) ∧
      cliMain upstream .noCommand = 1 := by
  refine ⟨rfl, ?_, rfl⟩
  have key : (analyzePipeline upstream t).isEmpty = false ↔
      ∃ e ∈ processServiceGroups upstream, t < e.cost := by
    constructor
    · intro hne
      have hnil : analyzePipeline upstream t ≠ [] := by
        intro h0
        rw [h0] at hne
        exact Bool.noConfusion hne
      obtain ⟨e, he⟩ := List.exists_mem_of_ne_nil _ hnil
      have := List.mem_filter.mp he
      exact ⟨e, this.1, of_decide_eq_true this.2⟩
    · rintro ⟨e, he, hte⟩
      have hmem : e ∈ analyzePipeline upstream t :=
        List.mem_filter.mpr ⟨he, decide_eq_true hte⟩
      have : analyzePipeline upstream t ≠ [] := List.ne_nil_of_mem hmem
      cases hE : (analyzePipeline upstream t).isEmpty with
      | false => rfl
      | true => exact absurd (List.isEmpty_iff.mp hE) this
  show (if (analyzePipeline upstream t).isEmpty then 1 else 0) = 0 ↔ _
  cases hE : (analyzePipeline upstream t).isEmpty with
  | false =>
    rw [if_neg (by simp)]
    exact ⟨fun _ => key.mp hE, fun _ => rfl⟩
  | true =>
    rw [if_pos rfl]
    constructor
    · intro h10
      exact absurd h10 (by decide)
    · rintro ⟨e, he, hte⟩
      have hcontra := key.mpr ⟨e, he, hte⟩
      rw [hE] at hcontra
      exact Bool.noConfusion hcontra

/-- C8 counterexample. On an upstream Cost Explorer error,
`AWSCostMonitor.get_service_costs` does not return an empty result set: it
substitutes the hardcoded 7-entry sample list. -/
theorem c8_monitor_sample_counterexample :
    monitor_get_service_costs (Except.error ("AccessDenied", "denied")) = sampleServiceCosts ∧
      sampleServiceCosts ≠ [] ∧
      (monitor_get_service_costs (Except.error ("AccessDenied", "denied"))).length = 7 :=
  ⟨rfl, by decide, by decide⟩

/-- C8 amended. On an upstream error, the adapter's
`get_service_costs` and `get_daily_costs` return empty result sets, while
`AWSCostMonitor`'s substitute hardcoded sample data (the 7-entry service
list, and generated sample daily rows). -/
theorem c8_error_paths (e : String × String)
    (processS : List (String × ℚ) → List ServiceEntry)
    (processD : List (String × ℚ) → List (String × ℚ × String))
    (dayStr : Nat → String) (days_back : Nat) :
    adapter_get_service_costs processS (Except.error e) = [] ∧
      adapter_get_daily_costs processD (Except.error e) = [] ∧
      monitor_get_service_costs (Except.error e) = sampleServiceCosts ∧
      monitor_get_daily_costs dayStr days_back (Except.error e) =
        sampleDailyCosts dayStr days_back :=
  ⟨rfl, rfl, rfl, rfl⟩

end NovaCost
